import Mathlib

/-!
Shallow embedding of src/teleprompter.py (class TeleprompterWindow).

The Qt widgets are modelled by the pieces of their state that the handlers
read or write: enabled flags, slider values, button captions, the read-only
flag of the text edit, the vertical scrollbar value of the text edit
(modelled as an unbounded integer: the handlers only ever call
setValue(value() + delta)), the window position and size, the cursor shape,
and the auto-scroll QTimer (active flag and interval).  Mouse events carry
the local and global pointer coordinates, the pressed button, the button
mask of buttons(), and the result of lock_button.underMouse().
-/

namespace Teleprompter

/-- An RGB color, standing for QColor as used by the handlers. -/
structure QColorRGB where
  red : Nat
  green : Nat
  blue : Nat
deriving DecidableEq

/-- The button of event.button(). -/
inductive MouseButton where
  | left
  | right
  | middle
  | noButton
deriving DecidableEq

/-- The button mask of event.buttons(). -/
structure MouseButtonsState where
  left : Bool
  right : Bool
  middle : Bool
deriving DecidableEq

/-- event.buttons() == Qt.LeftButton is an exact comparison of the mask:
only the left button is down. -/
def onlyLeft (b : MouseButtonsState) : Prop :=
  b = { left := true, right := false, middle := false }

instance (b : MouseButtonsState) : Decidable (onlyLeft b) := by
  unfold onlyLeft; infer_instance

/-- A mouse event as seen by mousePressEvent / mouseMoveEvent /
mouseReleaseEvent.  x, y are window-local, globalX, globalY are screen
coordinates.  overLockButton models lock_button.underMouse(). -/
structure MouseEvent where
  x : Int
  y : Int
  globalX : Int
  globalY : Int
  button : MouseButton
  buttons : MouseButtonsState
  overLockButton : Bool
deriving DecidableEq

/-- The two cursor shapes the handlers set. -/
inductive CursorShape where
  | arrowCursor
  | sizeFDiagCursor
deriving DecidableEq

/-- Keys the eventFilter inspects (event.key()). -/
inductive Key where
  | keyL
  | keyS
  | keyC
  | keyH
  | keyUp
  | keyDown
  | keyOther
deriving DecidableEq

/-- Modifier state (event.modifiers() is compared for exact equality, so
Ctrl+Alt is a distinct value from Ctrl). -/
inductive Mods where
  | noMod
  | ctrl
  | shift
  | ctrlAlt
  | otherMod
deriving DecidableEq

/-- The mutable state of the TeleprompterWindow instance together with the
widget state the handlers touch. -/
structure TeleState where
  -- attributes set in __init__
  locked : Bool
  scrolling : Bool
  scroll_speed : Int
  transparency : Rat
  font_color : QColorRGB
  font_size : Int
  font_family : String
  dragging : Bool
  drag_position : Option (Int × Int)
  resize_enabled : Bool
  -- attributes first assigned inside mousePressEvent (Python creates them
  -- on first assignment; mouseMoveEvent and mouseReleaseEvent guard the
  -- resizing attribute with hasattr, modelled by Option)
  resizing : Option Bool
  resize_start_pos : Option (Int × Int)
  resize_start_size : Option (Int × Int)
  -- widget state
  font_combo_enabled : Bool
  size_slider_enabled : Bool
  color_button_enabled : Bool
  trans_slider_enabled : Bool
  scroll_slider_enabled : Bool
  scroll_slider_value : Int
  lock_button_enabled : Bool
  scroll_button_enabled : Bool
  lock_button_text : String
  scroll_button_text : String
  text_read_only : Bool
  text_scroll_value : Int
  control_panel_visible : Bool
  win_pos : Int × Int
  win_size : Int × Int
  cursor : CursorShape
  -- auto-scroll QTimer
  scroll_timer_active : Bool
  scroll_timer_interval : Int
deriving DecidableEq

/-- setMinimumSize(300, 200): minimumWidth(). -/
def minimumWidth : Int := 300

/-- setMinimumSize(300, 200): minimumHeight(). -/
def minimumHeight : Int := 200

/-- corner_size = 20 in mousePressEvent and mouseMoveEvent. -/
def corner_size : Int := 20

/-- The state right after __init__ and init_ui: resize(600, 400),
move(100, 100), every control enabled, the timer created but not started
(QTimer starts inactive with interval 0). -/
def initState : TeleState where
  locked := false
  scrolling := false
  scroll_speed := 1
  transparency := 8 / 10
  font_color := { red := 255, green := 255, blue := 255 }
  font_size := 18
  font_family := "Arial"
  dragging := false
  drag_position := none
  resize_enabled := true
  resizing := none
  resize_start_pos := none
  resize_start_size := none
  font_combo_enabled := true
  size_slider_enabled := true
  color_button_enabled := true
  trans_slider_enabled := true
  scroll_slider_enabled := true
  scroll_slider_value := 1
  lock_button_enabled := true
  scroll_button_enabled := true
  lock_button_text := "Lock Position"
  scroll_button_text := "Start Scrolling"
  text_read_only := false
  text_scroll_value := 0
  control_panel_visible := true
  win_pos := (100, 100)
  win_size := (600, 400)
  cursor := CursorShape.arrowCursor
  scroll_timer_active := false
  scroll_timer_interval := 0

/-- toggle_lock: self.locked = not self.locked, then branch on the new
value.  The locked branch disables every style control, sets the text edit
read-only and re-enables the lock and scroll buttons; the unlocked branch
re-enables everything.  (setWindowFlags, show, activateWindow and raise_
have no modelled state.) -/
def toggle_lock (s : TeleState) : TeleState :=
  if !s.locked then
    { s with locked := true
             lock_button_text := "Unlock Position"
             font_combo_enabled := false
             size_slider_enabled := false
             color_button_enabled := false
             trans_slider_enabled := false
             scroll_slider_enabled := false
             text_read_only := true
             lock_button_enabled := true
             scroll_button_enabled := true }
  else
    { s with locked := false
             lock_button_text := "Lock Position"
             font_combo_enabled := true
             size_slider_enabled := true
             color_button_enabled := true
             trans_slider_enabled := true
             scroll_slider_enabled := true
             text_read_only := false
             lock_button_enabled := true
             scroll_button_enabled := true }

/-- toggle_scrolling: self.scrolling = not self.scrolling, then start the
timer with interval 50 or stop it, updating the button caption. -/
def toggle_scrolling (s : TeleState) : TeleState :=
  if !s.scrolling then
    { s with scrolling := true
             scroll_timer_active := true
             scroll_timer_interval := 50
             scroll_button_text := "Stop Scrolling" }
  else
    { s with scrolling := false
             scroll_timer_active := false
             scroll_button_text := "Start Scrolling" }

/-- auto_scroll: scrollbar.setValue(scrollbar.value() + self.scroll_speed). -/
def auto_scroll (s : TeleState) : TeleState :=
  { s with text_scroll_value := s.text_scroll_value + s.scroll_speed }

/-- scroll_up: scrollbar.setValue(scrollbar.value() - 10). -/
def scroll_up (s : TeleState) : TeleState :=
  { s with text_scroll_value := s.text_scroll_value - 10 }

/-- scroll_down: scrollbar.setValue(scrollbar.value() + 10). -/
def scroll_down (s : TeleState) : TeleState :=
  { s with text_scroll_value := s.text_scroll_value + 10 }

/-- increase_scroll_speed: min(speed + 1, 10), mirrored into the slider
(the re-emitted valueChanged reassigns the identical value). -/
def increase_scroll_speed (s : TeleState) : TeleState :=
  let sp := min (s.scroll_speed + 1) 10
  { s with scroll_speed := sp, scroll_slider_value := sp }

/-- decrease_scroll_speed: max(speed - 1, 1), mirrored into the slider. -/
def decrease_scroll_speed (s : TeleState) : TeleState :=
  let sp := max (s.scroll_speed - 1) 1
  { s with scroll_speed := sp, scroll_slider_value := sp }

/-- change_scroll_speed(value): the valueChanged handler of the scroll
slider; the slider holds the new value and the handler stores it verbatim.
The slider is configured with setMinimum(1) / setMaximum(10), so user
input only produces values in [1, 10]. -/
def change_scroll_speed (value : Int) (s : TeleState) : TeleState :=
  { s with scroll_speed := value, scroll_slider_value := value }

/-- change_font_family(family). -/
def change_font_family (family : String) (s : TeleState) : TeleState :=
  { s with font_family := family }

/-- change_font_size(size). -/
def change_font_size (size : Int) (s : TeleState) : TeleState :=
  { s with font_size := size }

/-- change_font_color: the dialog outcome is an input; none models a
cancelled dialog or an invalid color, some c a confirmed valid color. -/
def change_font_color (result : Option QColorRGB) (s : TeleState) : TeleState :=
  match result with
  | some c => { s with font_color := c }
  | none => s

/-- change_transparency(value): self.transparency = value / 100.0. -/
def change_transparency (value : Int) (s : TeleState) : TeleState :=
  { s with transparency := (value : Rat) / 100 }

/-- toggle_controls: flip the visibility of the control panel. -/
def toggle_controls (s : TeleState) : TeleState :=
  { s with control_panel_visible := !s.control_panel_visible }

/-- emergency_unlock: if self.locked: self.toggle_lock(). -/
def emergency_unlock (s : TeleState) : TeleState :=
  if s.locked then toggle_lock s else s

/-- mousePressEvent.  rect().bottomRight() of a window of size (w, h) is
(w - 1, h - 1).  The corner test starts a resize gesture; otherwise a
click on the lock button while locked toggles the lock; otherwise a left
press while unlocked starts a drag recording the offset between the global
pointer position and frameGeometry().topLeft() (= win_pos for a frameless
window). -/
def mousePressEvent (e : MouseEvent) (s : TeleState) : TeleState :=
  if s.resize_enabled = true ∧ (s.win_size.1 - 1) - e.x < corner_size
      ∧ (s.win_size.2 - 1) - e.y < corner_size then
    { s with cursor := CursorShape.sizeFDiagCursor
             dragging := false
             resizing := some true
             resize_start_pos := some (e.globalX, e.globalY)
             resize_start_size := some s.win_size }
  else if s.locked = true ∧ e.overLockButton = true then
    toggle_lock s
  else if s.locked = false ∧ e.button = MouseButton.left then
    { s with dragging := true
             resizing := some false
             drag_position := some (e.globalX - s.win_pos.1, e.globalY - s.win_pos.2) }
  else
    s

/-- mouseMoveEvent.  The resizing branch returns immediately; the dragging
branch falls through to the hover-cursor update.  drag_position and the
resize start fields are read through getD: in the source they are only
read after having been assigned together with the guarding flag. -/
def mouseMoveEvent (e : MouseEvent) (s : TeleState) : TeleState :=
  if s.resize_enabled = true ∧ s.resizing = some true ∧ onlyLeft e.buttons then
    let sp := s.resize_start_pos.getD (0, 0)
    let sz := s.resize_start_size.getD (0, 0)
    let new_width := max minimumWidth (sz.1 + (e.globalX - sp.1))
    let new_height := max minimumHeight (sz.2 + (e.globalY - sp.2))
    { s with win_size := (new_width, new_height) }
  else
    let s1 :=
      if s.locked = false ∧ s.dragging = true ∧ onlyLeft e.buttons then
        let dp := s.drag_position.getD (0, 0)
        { s with win_pos := (e.globalX - dp.1, e.globalY - dp.2) }
      else s
    if s1.resize_enabled = true then
      if (s1.win_size.1 - 1) - e.x < corner_size ∧ (s1.win_size.2 - 1) - e.y < corner_size then
        { s1 with cursor := CursorShape.sizeFDiagCursor }
      else
        { s1 with cursor := CursorShape.arrowCursor }
    else s1

/-- mouseReleaseEvent: only a left-button release clears the gesture
flags; resizing is reset only when the attribute exists (hasattr). -/
def mouseReleaseEvent (e : MouseEvent) (s : TeleState) : TeleState :=
  if e.button = MouseButton.left then
    { s with dragging := false
             resizing := s.resizing.map (fun _ => false) }
  else s

/-- eventFilter on KeyPress events.  Ctrl+L and Ctrl+S are dispatched
before the lock check; while locked every other key press is swallowed
(return True with no state change); while unlocked the remaining shortcuts
dispatch to their handlers.  The returned Bool is the filter result (true
means the event is consumed).  colorChoice feeds the Ctrl+C dialog. -/
def eventFilter (colorChoice : Option QColorRGB) (key : Key) (mods : Mods)
    (s : TeleState) : TeleState × Bool :=
  if key = Key.keyL ∧ mods = Mods.ctrl then (toggle_lock s, true)
  else if key = Key.keyS ∧ mods = Mods.ctrl then (toggle_scrolling s, true)
  else if s.locked = true then (s, true)
  else if key = Key.keyUp ∧ mods = Mods.shift then (scroll_up s, true)
  else if key = Key.keyDown ∧ mods = Mods.shift then (scroll_down s, true)
  else if key = Key.keyC ∧ mods = Mods.ctrl then (change_font_color colorChoice s, true)
  else if key = Key.keyH ∧ mods = Mods.ctrl then (toggle_controls s, true)
  else if key = Key.keyUp ∧ mods = Mods.ctrl then (increase_scroll_speed s, true)
  else if key = Key.keyDown ∧ mods = Mods.ctrl then (decrease_scroll_speed s, true)
  else (s, false)

/-- The key sequences bound to QShortcut objects: Ctrl+L, Ctrl+S, Ctrl+C,
Ctrl+Up, Ctrl+Down, Shift+Up, Shift+Down, Ctrl+H in setup_shortcuts, and
Ctrl+Alt+U in __init__. -/
inductive ShortcutSeq where
  | ctrlL
  | ctrlS
  | ctrlC
  | ctrlUp
  | ctrlDown
  | shiftUp
  | shiftDown
  | ctrlH
  | ctrlAltU
deriving DecidableEq

/-- QShortcut activation.  Qt resolves a key press against the shortcut
map of enabled QShortcuts before any KeyPress event is delivered to event
filters, and none of the nine QShortcuts created on the window is ever
disabled or removed, so each sequence invokes its connected slot in every
state, locked or not.  (This is the path that makes Ctrl+Alt+U work while
the eventFilter swallows every KeyPress in the locked state.)  colorChoice
feeds the Ctrl+C dialog. -/
def shortcutActivate (colorChoice : Option QColorRGB) (q : ShortcutSeq)
    (s : TeleState) : TeleState :=
  match q with
  | ShortcutSeq.ctrlL => toggle_lock s
  | ShortcutSeq.ctrlS => toggle_scrolling s
  | ShortcutSeq.ctrlC => change_font_color colorChoice s
  | ShortcutSeq.ctrlUp => increase_scroll_speed s
  | ShortcutSeq.ctrlDown => decrease_scroll_speed s
  | ShortcutSeq.shiftUp => scroll_up s
  | ShortcutSeq.shiftDown => scroll_down s
  | ShortcutSeq.ctrlH => toggle_controls s
  | ShortcutSeq.ctrlAltU => emergency_unlock s

/-- One event dispatched by the Qt event loop.  Slider and combo events
require the widget to be enabled and carry a value within the configured
widget range; the timer tick fires only while the timer is active; a
QShortcut activation is available in every state (the shortcut map
consumes a matching key press before the eventFilter sees it); keyPress
models the KeyPress delivery path through the eventFilter for whatever
key presses do reach the window. -/
inductive Step : TeleState → TeleState → Prop where
  | keyPress (s : TeleState) (d : Option QColorRGB) (k : Key) (m : Mods) :
      Step s (eventFilter d k m s).1
  | shortcut (s : TeleState) (d : Option QColorRGB) (q : ShortcutSeq) :
      Step s (shortcutActivate d q s)
  | lockClick (s : TeleState) (h : s.lock_button_enabled = true) :
      Step s (toggle_lock s)
  | scrollClick (s : TeleState) (h : s.scroll_button_enabled = true) :
      Step s (toggle_scrolling s)
  | colorClick (s : TeleState) (d : Option QColorRGB)
      (h : s.color_button_enabled = true) :
      Step s (change_font_color d s)
  | scrollSliderChange (s : TeleState) (v : Int)
      (h : s.scroll_slider_enabled = true) (h1 : 1 ≤ v) (h2 : v ≤ 10) :
      Step s (change_scroll_speed v s)
  | sizeSliderChange (s : TeleState) (v : Int)
      (h : s.size_slider_enabled = true) (h1 : 8 ≤ v) (h2 : v ≤ 72) :
      Step s (change_font_size v s)
  | transSliderChange (s : TeleState) (v : Int)
      (h : s.trans_slider_enabled = true) (h1 : 10 ≤ v) (h2 : v ≤ 100) :
      Step s (change_transparency v s)
  | comboChange (s : TeleState) (f : String)
      (h : s.font_combo_enabled = true) :
      Step s (change_font_family f s)
  | timerTick (s : TeleState) (h : s.scroll_timer_active = true) :
      Step s (auto_scroll s)
  | press (s : TeleState) (e : MouseEvent) : Step s (mousePressEvent e s)
  | move (s : TeleState) (e : MouseEvent) : Step s (mouseMoveEvent e s)
  | release (s : TeleState) (e : MouseEvent) : Step s (mouseReleaseEvent e s)

/-- States reachable from the freshly initialised window. -/
inductive Reachable : TeleState → Prop where
  | init : Reachable initState
  | step {s t : TeleState} : Reachable s → Step s t → Reachable t

/-- The lock-consistency invariant: the lock and scroll buttons stay
enabled, every style control and the read-only flag track the lock flag,
the timer tracks the scrolling flag, and resize stays enabled. -/
def Inv (s : TeleState) : Prop :=
  s.lock_button_enabled = true ∧
  s.scroll_button_enabled = true ∧
  s.font_combo_enabled = !s.locked ∧
  s.size_slider_enabled = !s.locked ∧
  s.color_button_enabled = !s.locked ∧
  s.trans_slider_enabled = !s.locked ∧
  s.scroll_slider_enabled = !s.locked ∧
  s.text_read_only = s.locked ∧
  s.scroll_timer_active = s.scrolling ∧
  s.resize_enabled = true

lemma inv_initState : Inv initState := by
  simp [Inv, initState]

lemma inv_toggle_lock {s : TeleState} (h : Inv s) : Inv (toggle_lock s) := by
  obtain ⟨h1, h2, h3, h4, h5, h6, h7, h8, h9, h10⟩ := h
  cases hl : s.locked <;> simp_all [Inv, toggle_lock]

lemma inv_toggle_scrolling {s : TeleState} (h : Inv s) : Inv (toggle_scrolling s) := by
  obtain ⟨h1, h2, h3, h4, h5, h6, h7, h8, h9, h10⟩ := h
  cases hsc : s.scrolling <;> simp_all [Inv, toggle_scrolling]

lemma inv_auto_scroll {s : TeleState} (h : Inv s) : Inv (auto_scroll s) := by
  simpa [Inv, auto_scroll] using h

lemma inv_scroll_up {s : TeleState} (h : Inv s) : Inv (scroll_up s) := by
  simpa [Inv, scroll_up] using h

lemma inv_scroll_down {s : TeleState} (h : Inv s) : Inv (scroll_down s) := by
  simpa [Inv, scroll_down] using h

lemma inv_increase_scroll_speed {s : TeleState} (h : Inv s) :
    Inv (increase_scroll_speed s) := by
  simpa [Inv, increase_scroll_speed] using h

lemma inv_decrease_scroll_speed {s : TeleState} (h : Inv s) :
    Inv (decrease_scroll_speed s) := by
  simpa [Inv, decrease_scroll_speed] using h

lemma inv_change_scroll_speed {s : TeleState} (v : Int) (h : Inv s) :
    Inv (change_scroll_speed v s) := by
  simpa [Inv, change_scroll_speed] using h

lemma inv_change_font_family {s : TeleState} (f : String) (h : Inv s) :
    Inv (change_font_family f s) := by
  simpa [Inv, change_font_family] using h

lemma inv_change_font_size {s : TeleState} (v : Int) (h : Inv s) :
    Inv (change_font_size v s) := by
  simpa [Inv, change_font_size] using h

lemma inv_change_font_color {s : TeleState} (d : Option QColorRGB) (h : Inv s) :
    Inv (change_font_color d s) := by
  cases d <;> simpa [Inv, change_font_color] using h

lemma inv_change_transparency {s : TeleState} (v : Int) (h : Inv s) :
    Inv (change_transparency v s) := by
  simpa [Inv, change_transparency] using h

lemma inv_toggle_controls {s : TeleState} (h : Inv s) : Inv (toggle_controls s) := by
  simpa [Inv, toggle_controls] using h

lemma inv_emergency_unlock {s : TeleState} (h : Inv s) : Inv (emergency_unlock s) := by
  unfold emergency_unlock
  split
  · exact inv_toggle_lock h
  · exact h

lemma inv_shortcutActivate {s : TeleState} (d : Option QColorRGB) (q : ShortcutSeq)
    (h : Inv s) : Inv (shortcutActivate d q s) := by
  cases q with
  | ctrlL => exact inv_toggle_lock h
  | ctrlS => exact inv_toggle_scrolling h
  | ctrlC => exact inv_change_font_color d h
  | ctrlUp => exact inv_increase_scroll_speed h
  | ctrlDown => exact inv_decrease_scroll_speed h
  | shiftUp => exact inv_scroll_up h
  | shiftDown => exact inv_scroll_down h
  | ctrlH => exact inv_toggle_controls h
  | ctrlAltU => exact inv_emergency_unlock h

lemma inv_mousePressEvent {s : TeleState} (e : MouseEvent) (h : Inv s) :
    Inv (mousePressEvent e s) := by
  unfold mousePressEvent
  split
  · simpa [Inv] using h
  · split
    · exact inv_toggle_lock h
    · split
      · simpa [Inv] using h
      · exact h

lemma inv_mouseMoveEvent {s : TeleState} (e : MouseEvent) (h : Inv s) :
    Inv (mouseMoveEvent e s) := by
  simp only [mouseMoveEvent]
  split_ifs <;> simpa [Inv] using h

lemma inv_mouseReleaseEvent {s : TeleState} (e : MouseEvent) (h : Inv s) :
    Inv (mouseReleaseEvent e s) := by
  unfold mouseReleaseEvent
  split
  · simpa [Inv] using h
  · exact h

lemma inv_eventFilter {s : TeleState} (d : Option QColorRGB) (k : Key) (m : Mods)
    (h : Inv s) : Inv (eventFilter d k m s).1 := by
  unfold eventFilter
  split
  · exact inv_toggle_lock h
  · split
    · exact inv_toggle_scrolling h
    · split
      · exact h
      · split
        · exact inv_scroll_up h
        · split
          · exact inv_scroll_down h
          · split
            · exact inv_change_font_color d h
            · split
              · exact inv_toggle_controls h
              · split
                · exact inv_increase_scroll_speed h
                · split
                  · exact inv_decrease_scroll_speed h
                  · exact h

lemma inv_step {s t : TeleState} (h : Inv s) (hs : Step s t) : Inv t := by
  cases hs with
  | keyPress d k m => exact inv_eventFilter d k m h
  | shortcut d q => exact inv_shortcutActivate d q h
  | lockClick _ => exact inv_toggle_lock h
  | scrollClick _ => exact inv_toggle_scrolling h
  | colorClick d _ => exact inv_change_font_color d h
  | scrollSliderChange v _ _ _ => exact inv_change_scroll_speed v h
  | sizeSliderChange v _ _ _ => exact inv_change_font_size v h
  | transSliderChange v _ _ _ => exact inv_change_transparency v h
  | comboChange f _ => exact inv_change_font_family f h
  | timerTick _ => exact inv_auto_scroll h
  | press e => exact inv_mousePressEvent e h
  | move e => exact inv_mouseMoveEvent e h
  | release e => exact inv_mouseReleaseEvent e h

lemma reachable_inv {s : TeleState} (h : Reachable s) : Inv s := by
  induction h with
  | init => exact inv_initState
  | step _ hs ih => exact inv_step ih hs

/-- Iterating auto_scroll n times adds n * scroll_speed to the scrollbar
value and leaves the speed unchanged. -/
lemma auto_scroll_iterate (st : TeleState) (n : Nat) :
    (auto_scroll^[n] st).text_scroll_value
      = st.text_scroll_value + n * st.scroll_speed
    ∧ (auto_scroll^[n] st).scroll_speed = st.scroll_speed := by
  induction n with
  | zero => simp
  | succ n ih =>
    rw [Function.iterate_succ_apply']
    refine ⟨?_, ?_⟩
    · simp only [auto_scroll, ih.1, ih.2]
      push_cast
      ring
    · simp only [auto_scroll, ih.2]

/-- C1: invoking emergency_unlock always leaves the lock flag false; from a
locked state it re-enables every control and clears the read-only flag,
and from an unlocked state it is a no-op. -/
theorem C1_emergency_unlock_escapes (s : TeleState) :
    (emergency_unlock s).locked = false
    ∧ (s.locked = false → emergency_unlock s = s)
    ∧ (s.locked = true →
        (emergency_unlock s).font_combo_enabled = true
        ∧ (emergency_unlock s).size_slider_enabled = true
        ∧ (emergency_unlock s).color_button_enabled = true
        ∧ (emergency_unlock s).trans_slider_enabled = true
        ∧ (emergency_unlock s).scroll_slider_enabled = true
        ∧ (emergency_unlock s).lock_button_enabled = true
        ∧ (emergency_unlock s).scroll_button_enabled = true
        ∧ (emergency_unlock s).text_read_only = false) := by
  cases hl : s.locked <;> simp [emergency_unlock, toggle_lock, hl]

theorem C1_emergency_unlock_escapes_witness :
    (emergency_unlock (toggle_lock initState)).locked = false
    ∧ (emergency_unlock (toggle_lock initState)).font_combo_enabled = true
    ∧ emergency_unlock initState = initState :=
  ⟨(C1_emergency_unlock_escapes (toggle_lock initState)).1,
   ((C1_emergency_unlock_escapes (toggle_lock initState)).2.2 (by decide)).1,
   (C1_emergency_unlock_escapes initState).2.1 (by decide)⟩

/-- C3: starting from a speed in [1, 10], increase_scroll_speed and
decrease_scroll_speed keep the speed in [1, 10], clamping at 10 and at 1
respectively, and the slider valueChanged handler keeps the stored speed
in [1, 10] for every value the slider (configured range [1, 10]) can
deliver. -/
theorem C3_scroll_speed_in_range (s : TeleState) (v : Int)
    (h1 : 1 ≤ s.scroll_speed) (h2 : s.scroll_speed ≤ 10)
    (hv1 : 1 ≤ v) (hv2 : v ≤ 10) :
    (1 ≤ (increase_scroll_speed s).scroll_speed
      ∧ (increase_scroll_speed s).scroll_speed ≤ 10)
    ∧ (1 ≤ (decrease_scroll_speed s).scroll_speed
      ∧ (decrease_scroll_speed s).scroll_speed ≤ 10)
    ∧ (1 ≤ (change_scroll_speed v s).scroll_speed
      ∧ (change_scroll_speed v s).scroll_speed ≤ 10)
    ∧ (s.scroll_speed = 10 → (increase_scroll_speed s).scroll_speed = 10)
    ∧ (s.scroll_speed = 1 → (decrease_scroll_speed s).scroll_speed = 1)
    ∧ (increase_scroll_speed s).scroll_speed = min (s.scroll_speed + 1) 10
    ∧ (decrease_scroll_speed s).scroll_speed = max (s.scroll_speed - 1) 1 := by
  refine ⟨⟨?_, ?_⟩, ⟨?_, ?_⟩, ⟨?_, ?_⟩, fun h => ?_, fun h => ?_, ?_, ?_⟩ <;>
    simp only [increase_scroll_speed, decrease_scroll_speed, change_scroll_speed] <;>
    omega

theorem C3_scroll_speed_in_range_witness :
    (1 ≤ (increase_scroll_speed initState).scroll_speed
      ∧ (increase_scroll_speed initState).scroll_speed ≤ 10)
    ∧ (1 ≤ (decrease_scroll_speed initState).scroll_speed
      ∧ (decrease_scroll_speed initState).scroll_speed ≤ 10)
    ∧ (1 ≤ (change_scroll_speed 5 initState).scroll_speed
      ∧ (change_scroll_speed 5 initState).scroll_speed ≤ 10)
    ∧ (initState.scroll_speed = 10 → (increase_scroll_speed initState).scroll_speed = 10)
    ∧ (initState.scroll_speed = 1 → (decrease_scroll_speed initState).scroll_speed = 1)
    ∧ (increase_scroll_speed initState).scroll_speed = min (initState.scroll_speed + 1) 10
    ∧ (decrease_scroll_speed initState).scroll_speed = max (initState.scroll_speed - 1) 1 :=
  C3_scroll_speed_in_range initState 5 (by decide) (by decide) (by decide) (by decide)

/-- C5: while the scrolling flag is set and the timer is active, with any
speed in [1, 10], every tick of auto_scroll advances the scrollbar value
by exactly the speed, with no drift over any number of consecutive ticks;
in particular after 5 ticks the value has advanced by exactly 5 * speed. -/
theorem C5_auto_scroll_exact (st : TeleState)
    (_hact : st.scrolling = true) (_htimer : st.scroll_timer_active = true)
    (_hint : st.scroll_timer_interval = 50)
    (_h1 : 1 ≤ st.scroll_speed) (_h2 : st.scroll_speed ≤ 10) :
    (∀ n : Nat, (auto_scroll (auto_scroll^[n] st)).text_scroll_value
        = (auto_scroll^[n] st).text_scroll_value + st.scroll_speed)
    ∧ (∀ n : Nat, (auto_scroll^[n] st).text_scroll_value
        = st.text_scroll_value + n * st.scroll_speed)
    ∧ (auto_scroll^[5] st).text_scroll_value
        = st.text_scroll_value + 5 * st.scroll_speed := by
  refine ⟨?_, ?_, ?_⟩
  · intro n
    simp only [auto_scroll, (auto_scroll_iterate st n).2]
  · intro n
    exact (auto_scroll_iterate st n).1
  · have h := (auto_scroll_iterate st 5).1
    simpa using h

theorem C5_auto_scroll_exact_witness :
    (∀ n : Nat, (auto_scroll (auto_scroll^[n] (toggle_scrolling initState))).text_scroll_value
        = (auto_scroll^[n] (toggle_scrolling initState)).text_scroll_value
          + (toggle_scrolling initState).scroll_speed)
    ∧ (∀ n : Nat, (auto_scroll^[n] (toggle_scrolling initState)).text_scroll_value
        = (toggle_scrolling initState).text_scroll_value
          + n * (toggle_scrolling initState).scroll_speed)
    ∧ (auto_scroll^[5] (toggle_scrolling initState)).text_scroll_value
        = (toggle_scrolling initState).text_scroll_value
          + 5 * (toggle_scrolling initState).scroll_speed :=
  C5_auto_scroll_exact (toggle_scrolling initState)
    (by decide) (by decide) (by decide) (by decide) (by decide)

/-- C6: scroll_up and scroll_down do change the scrollbar value by exactly
-10 and +10 whatever the speed and the scrolling flag, but the locked half
of the claim fails on the code: scroll_up_shortcut and scroll_down_shortcut
(QShortcut Shift+Up / Shift+Down) are never disabled, and the shortcut map
dispatches them before the eventFilter can swallow the key press, so in
the locked state a nudge still moves the offset by the full 10 units, as
this evaluation at the locked initial state shows. -/
theorem C6_locked_nudge_fires :
    (∀ s : TeleState,
      (scroll_up s).text_scroll_value = s.text_scroll_value - 10
      ∧ (scroll_down s).text_scroll_value = s.text_scroll_value + 10)
    ∧ (toggle_lock initState).locked = true
    ∧ (shortcutActivate none ShortcutSeq.shiftDown (toggle_lock initState)).text_scroll_value
      = (toggle_lock initState).text_scroll_value + 10
    ∧ (shortcutActivate none ShortcutSeq.shiftUp (toggle_lock initState)).text_scroll_value
      = (toggle_lock initState).text_scroll_value - 10 :=
  ⟨fun s => ⟨rfl, rfl⟩, by decide, by decide, by decide⟩

/-- C2: the always-escapable half holds (the lock and scroll buttons are
enabled in the locked state and Ctrl+L / Ctrl+S dispatch), but the
blocking half fails on the code: the QShortcuts of setup_shortcuts are
never disabled and the shortcut map dispatches them before the
eventFilter can swallow the key press — the very bypass that lets
Ctrl+Alt+U work while the filter swallows every KeyPress in the locked
state.  So while locked, Ctrl+H still toggles the control panel, Ctrl+Up
still raises the speed, and Shift+Down still moves the offset, as this
evaluation at the locked initial state shows. -/
theorem C2_locked_shortcut_fires :
    (toggle_lock initState).locked = true
    ∧ (toggle_lock initState).lock_button_enabled = true
    ∧ (toggle_lock initState).scroll_button_enabled = true
    ∧ (shortcutActivate none ShortcutSeq.ctrlL (toggle_lock initState)).locked = false
    ∧ (shortcutActivate none ShortcutSeq.ctrlS (toggle_lock initState)).scrolling = true
    ∧ (shortcutActivate none ShortcutSeq.ctrlH (toggle_lock initState)).control_panel_visible
      = !(toggle_lock initState).control_panel_visible
    ∧ (shortcutActivate none ShortcutSeq.ctrlUp (toggle_lock initState)).scroll_speed
      = (toggle_lock initState).scroll_speed + 1
    ∧ (shortcutActivate none ShortcutSeq.shiftDown (toggle_lock initState)).text_scroll_value
      = (toggle_lock initState).text_scroll_value + 10 := by
  decide

/-- C4: from any reachable state, applying toggle_lock twice restores
every control enabled flag and the read-only flag of the text edit, and
the lock and scroll buttons are enabled before, in between, and after. -/
theorem C4_lock_round_trip (s : TeleState) (hr : Reachable s) :
    (toggle_lock (toggle_lock s)).font_combo_enabled = s.font_combo_enabled
    ∧ (toggle_lock (toggle_lock s)).size_slider_enabled = s.size_slider_enabled
    ∧ (toggle_lock (toggle_lock s)).color_button_enabled = s.color_button_enabled
    ∧ (toggle_lock (toggle_lock s)).trans_slider_enabled = s.trans_slider_enabled
    ∧ (toggle_lock (toggle_lock s)).scroll_slider_enabled = s.scroll_slider_enabled
    ∧ (toggle_lock (toggle_lock s)).lock_button_enabled = s.lock_button_enabled
    ∧ (toggle_lock (toggle_lock s)).scroll_button_enabled = s.scroll_button_enabled
    ∧ (toggle_lock (toggle_lock s)).text_read_only = s.text_read_only
    ∧ s.lock_button_enabled = true
    ∧ s.scroll_button_enabled = true
    ∧ (toggle_lock s).lock_button_enabled = true
    ∧ (toggle_lock s).scroll_button_enabled = true
    ∧ (toggle_lock (toggle_lock s)).lock_button_enabled = true
    ∧ (toggle_lock (toggle_lock s)).scroll_button_enabled = true := by
  obtain ⟨h1, h2, h3, h4, h5, h6, h7, h8, h9, h10⟩ := reachable_inv hr
  cases hl : s.locked <;> simp_all [toggle_lock]

theorem C4_lock_round_trip_witness :
    (toggle_lock (toggle_lock initState)).font_combo_enabled
      = initState.font_combo_enabled
    ∧ (toggle_lock (toggle_lock initState)).size_slider_enabled
      = initState.size_slider_enabled
    ∧ (toggle_lock (toggle_lock initState)).color_button_enabled
      = initState.color_button_enabled
    ∧ (toggle_lock (toggle_lock initState)).trans_slider_enabled
      = initState.trans_slider_enabled
    ∧ (toggle_lock (toggle_lock initState)).scroll_slider_enabled
      = initState.scroll_slider_enabled
    ∧ (toggle_lock (toggle_lock initState)).lock_button_enabled
      = initState.lock_button_enabled
    ∧ (toggle_lock (toggle_lock initState)).scroll_button_enabled
      = initState.scroll_button_enabled
    ∧ (toggle_lock (toggle_lock initState)).text_read_only
      = initState.text_read_only
    ∧ initState.lock_button_enabled = true
    ∧ initState.scroll_button_enabled = true
    ∧ (toggle_lock initState).lock_button_enabled = true
    ∧ (toggle_lock initState).scroll_button_enabled = true
    ∧ (toggle_lock (toggle_lock initState)).lock_button_enabled = true
    ∧ (toggle_lock (toggle_lock initState)).scroll_button_enabled = true :=
  C4_lock_round_trip initState Reachable.init

/-- C7: while a resize gesture is in progress (resizing flag set, left
button held), a pointer move sets the window size to the recorded starting
size plus the pointer delta, each dimension floored at the 300 by 200
minimum, so the result is never below the minimum for any delta. -/
theorem C7_resize_floor (s : TeleState) (e : MouseEvent) (p sz : Int × Int)
    (hre : s.resize_enabled = true) (hr : s.resizing = some true)
    (hb : onlyLeft e.buttons)
    (hp : s.resize_start_pos = some p) (hs : s.resize_start_size = some sz) :
    (mouseMoveEvent e s).win_size
      = (max 300 (sz.1 + (e.globalX - p.1)), max 200 (sz.2 + (e.globalY - p.2)))
    ∧ 300 ≤ (mouseMoveEvent e s).win_size.1
    ∧ 200 ≤ (mouseMoveEvent e s).win_size.2 := by
  have hmove : mouseMoveEvent e s
      = { s with win_size := (max 300 (sz.1 + (e.globalX - p.1)),
                              max 200 (sz.2 + (e.globalY - p.2))) } := by
    unfold mouseMoveEvent
    rw [if_pos ⟨hre, hr, hb⟩]
    simp [hp, hs, minimumWidth, minimumHeight]
  rw [hmove]
  exact ⟨rfl, le_max_left _ _, le_max_left _ _⟩

def cornerPress : MouseEvent :=
  { x := 590, y := 390, globalX := 690, globalY := 490,
    button := MouseButton.left,
    buttons := { left := true, right := false, middle := false },
    overLockButton := false }

def bigNegativeMove : MouseEvent :=
  { x := 0, y := 0, globalX := -1000, globalY := -1000,
    button := MouseButton.noButton,
    buttons := { left := true, right := false, middle := false },
    overLockButton := false }

theorem C7_resize_floor_witness :
    (mouseMoveEvent bigNegativeMove (mousePressEvent cornerPress initState)).win_size
      = (300, 200)
    ∧ 300 ≤ (mouseMoveEvent bigNegativeMove (mousePressEvent cornerPress initState)).win_size.1
    ∧ 200 ≤ (mouseMoveEvent bigNegativeMove (mousePressEvent cornerPress initState)).win_size.2 := by
  have h := C7_resize_floor (mousePressEvent cornerPress initState) bigNegativeMove
    (690, 490) (600, 400) (by decide) (by decide) (by decide) (by decide) (by decide)
  refine ⟨?_, h.2.1, h.2.2⟩
  rw [h.1]
  decide

/-- C8: while locked, a mouse press never starts a drag (the dragging flag
is never newly set) and never moves the window origin, a mouse move never
moves the origin, and a press inside the 20 by 20 bottom-right corner
hotspot still starts a resize gesture recording the starting pointer
position and window size. -/
theorem C8_locked_drag_gated (s : TeleState) (e : MouseEvent)
    (hl : s.locked = true) :
    ((mousePressEvent e s).dragging = true → s.dragging = true)
    ∧ (mousePressEvent e s).win_pos = s.win_pos
    ∧ (mouseMoveEvent e s).win_pos = s.win_pos
    ∧ (s.resize_enabled = true →
        (s.win_size.1 - 1) - e.x < corner_size →
        (s.win_size.2 - 1) - e.y < corner_size →
        (mousePressEvent e s).resizing = some true
        ∧ (mousePressEvent e s).resize_start_pos = some (e.globalX, e.globalY)
        ∧ (mousePressEvent e s).resize_start_size = some s.win_size) := by
  refine ⟨?_, ?_, ?_, ?_⟩
  · simp only [mousePressEvent]
    split_ifs <;> simp_all [toggle_lock]
  · simp only [mousePressEvent]
    split_ifs <;> simp_all [toggle_lock]
  · simp only [mouseMoveEvent]
    split_ifs <;> simp_all
  · intro h1 h2 h3
    simp only [mousePressEvent]
    rw [if_pos ⟨h1, h2, h3⟩]
    exact ⟨rfl, rfl, rfl⟩

def lockedCornerPress : MouseEvent :=
  { x := 595, y := 395, globalX := 695, globalY := 495,
    button := MouseButton.left,
    buttons := { left := true, right := false, middle := false },
    overLockButton := false }

theorem C8_locked_drag_gated_witness :
    ((mousePressEvent lockedCornerPress (toggle_lock initState)).dragging = true
      → (toggle_lock initState).dragging = true)
    ∧ (mousePressEvent lockedCornerPress (toggle_lock initState)).win_pos
      = (toggle_lock initState).win_pos
    ∧ (mouseMoveEvent lockedCornerPress (toggle_lock initState)).win_pos
      = (toggle_lock initState).win_pos
    ∧ ((toggle_lock initState).resize_enabled = true →
        ((toggle_lock initState).win_size.1 - 1) - lockedCornerPress.x < corner_size →
        ((toggle_lock initState).win_size.2 - 1) - lockedCornerPress.y < corner_size →
        (mousePressEvent lockedCornerPress (toggle_lock initState)).resizing = some true
        ∧ (mousePressEvent lockedCornerPress (toggle_lock initState)).resize_start_pos
          = some (lockedCornerPress.globalX, lockedCornerPress.globalY)
        ∧ (mousePressEvent lockedCornerPress (toggle_lock initState)).resize_start_size
          = some (toggle_lock initState).win_size) :=
  C8_locked_drag_gated (toggle_lock initState) lockedCornerPress (by decide)

/-- A left press away from the corner hotspot: starts a drag gesture. -/
def dragPress : MouseEvent :=
  { x := 50, y := 50, globalX := 150, globalY := 150,
    button := MouseButton.left,
    buttons := { left := true, right := false, middle := false },
    overLockButton := false }

/-- A release of the right button while the left button is still held. -/
def rightRelease : MouseEvent :=
  { x := 50, y := 50, globalX := 150, globalY := 150,
    button := MouseButton.right,
    buttons := { left := true, right := false, middle := false },
    overLockButton := false }

/-- A release of the left button. -/
def leftRelease : MouseEvent :=
  { x := 50, y := 50, globalX := 150, globalY := 150,
    button := MouseButton.left,
    buttons := { left := false, right := false, middle := false },
    overLockButton := false }

/-- C9 counterexample: mouseReleaseEvent only clears the gesture flags
when event.button() is the left button.  After a left press starts a drag
(a reachable state), releasing the right button leaves the dragging flag
true, so the claim as stated, quantified over every pointer release event,
is false at this input. -/
theorem C9_right_release_counterexample :
    ¬ ((mouseReleaseEvent rightRelease (mousePressEvent dragPress initState)).dragging
        = false) := by
  decide

/-- C9 amended: for every left-button release event, in every state, the
dragging flag is false and the resizing flag is not set after the handler
runs (the resizing attribute is reset only when it exists, and an absent
attribute also means no resize gesture is active). -/
theorem C9_left_release_clears (s : TeleState) (e : MouseEvent)
    (h : e.button = MouseButton.left) :
    (mouseReleaseEvent e s).dragging = false
    ∧ (mouseReleaseEvent e s).resizing ≠ some true := by
  unfold mouseReleaseEvent
  rw [if_pos h]
  refine ⟨rfl, ?_⟩
  cases s.resizing <;> simp

theorem C9_left_release_clears_witness :
    (mouseReleaseEvent leftRelease (mousePressEvent dragPress initState)).dragging = false
    ∧ (mouseReleaseEvent leftRelease (mousePressEvent dragPress initState)).resizing
      ≠ some true :=
  C9_left_release_clears (mousePressEvent dragPress initState) leftRelease rfl

/-- C10: in every reachable state the auto-scroll timer is active exactly
when the scrolling flag is set; initially both are off; toggle_scrolling
flips both together, starting the timer with interval 50 exactly when the
flag turns true and stopping it when the flag turns false; and every other
handler leaves both the flag and the timer untouched. -/
theorem C10_timer_iff_scrolling (s : TeleState) (hr : Reachable s) :
    s.scroll_timer_active = s.scrolling
    ∧ initState.scrolling = false
    ∧ initState.scroll_timer_active = false
    ∧ (toggle_scrolling s).scrolling = !s.scrolling
    ∧ (toggle_scrolling s).scroll_timer_active = !s.scrolling
    ∧ (s.scrolling = false → (toggle_scrolling s).scroll_timer_active = true
        ∧ (toggle_scrolling s).scroll_timer_interval = 50)
    ∧ (s.scrolling = true → (toggle_scrolling s).scroll_timer_active = false)
    ∧ ((toggle_lock s).scrolling = s.scrolling
        ∧ (toggle_lock s).scroll_timer_active = s.scroll_timer_active)
    ∧ ((emergency_unlock s).scrolling = s.scrolling
        ∧ (emergency_unlock s).scroll_timer_active = s.scroll_timer_active)
    ∧ ((auto_scroll s).scrolling = s.scrolling
        ∧ (auto_scroll s).scroll_timer_active = s.scroll_timer_active)
    ∧ ((scroll_up s).scrolling = s.scrolling
        ∧ (scroll_up s).scroll_timer_active = s.scroll_timer_active)
    ∧ ((scroll_down s).scrolling = s.scrolling
        ∧ (scroll_down s).scroll_timer_active = s.scroll_timer_active)
    ∧ ((increase_scroll_speed s).scrolling = s.scrolling
        ∧ (increase_scroll_speed s).scroll_timer_active = s.scroll_timer_active)
    ∧ ((decrease_scroll_speed s).scrolling = s.scrolling
        ∧ (decrease_scroll_speed s).scroll_timer_active = s.scroll_timer_active)
    ∧ (∀ v : Int, (change_scroll_speed v s).scrolling = s.scrolling
        ∧ (change_scroll_speed v s).scroll_timer_active = s.scroll_timer_active)
    ∧ (∀ v : Int, (change_font_size v s).scrolling = s.scrolling
        ∧ (change_font_size v s).scroll_timer_active = s.scroll_timer_active)
    ∧ (∀ f : String, (change_font_family f s).scrolling = s.scrolling
        ∧ (change_font_family f s).scroll_timer_active = s.scroll_timer_active)
    ∧ (∀ d : Option QColorRGB, (change_font_color d s).scrolling = s.scrolling
        ∧ (change_font_color d s).scroll_timer_active = s.scroll_timer_active)
    ∧ (∀ v : Int, (change_transparency v s).scrolling = s.scrolling
        ∧ (change_transparency v s).scroll_timer_active = s.scroll_timer_active)
    ∧ ((toggle_controls s).scrolling = s.scrolling
        ∧ (toggle_controls s).scroll_timer_active = s.scroll_timer_active)
    ∧ (∀ e : MouseEvent, (mousePressEvent e s).scrolling = s.scrolling
        ∧ (mousePressEvent e s).scroll_timer_active = s.scroll_timer_active)
    ∧ (∀ e : MouseEvent, (mouseMoveEvent e s).scrolling = s.scrolling
        ∧ (mouseMoveEvent e s).scroll_timer_active = s.scroll_timer_active)
    ∧ (∀ e : MouseEvent, (mouseReleaseEvent e s).scrolling = s.scrolling
        ∧ (mouseReleaseEvent e s).scroll_timer_active = s.scroll_timer_active) := by
  obtain ⟨-, -, -, -, -, -, -, -, h9, -⟩ := reachable_inv hr
  refine ⟨h9, rfl, rfl, ?_, ?_, ?_, ?_, ?_, ?_, ⟨rfl, rfl⟩, ⟨rfl, rfl⟩, ⟨rfl, rfl⟩,
    ⟨rfl, rfl⟩, ⟨rfl, rfl⟩, fun v => ⟨rfl, rfl⟩, fun v => ⟨rfl, rfl⟩,
    fun f => ⟨rfl, rfl⟩, ?_, fun v => ⟨rfl, rfl⟩, ⟨rfl, rfl⟩, ?_, ?_, ?_⟩
  · cases hsc : s.scrolling <;> simp [toggle_scrolling, hsc]
  · cases hsc : s.scrolling <;> simp [toggle_scrolling, hsc]
  · intro hsc; simp [toggle_scrolling, hsc]
  · intro hsc; simp [toggle_scrolling, hsc]
  · unfold toggle_lock; split <;> exact ⟨rfl, rfl⟩
  · unfold emergency_unlock toggle_lock; split <;> try split
    all_goals exact ⟨rfl, rfl⟩
  · intro d; cases d <;> exact ⟨rfl, rfl⟩
  · intro e
    simp only [mousePressEvent]
    split_ifs <;> simp_all [toggle_lock]
  · intro e
    simp only [mouseMoveEvent]
    split_ifs <;> simp_all
  · intro e
    simp only [mouseReleaseEvent]
    split_ifs <;> simp_all

theorem C10_timer_iff_scrolling_witness :
    initState.scroll_timer_active = initState.scrolling
    ∧ (toggle_scrolling initState).scrolling = !initState.scrolling
    ∧ (initState.scrolling = false
        → (toggle_scrolling initState).scroll_timer_active = true
          ∧ (toggle_scrolling initState).scroll_timer_interval = 50) :=
  have h := C10_timer_iff_scrolling initState Reachable.init
  ⟨h.1, h.2.2.2.1, h.2.2.2.2.2.1⟩

end Teleprompter
